import Mathlib

/-!
# Cascade engine of package bongo (cascade.go)

A shallow embedding of `CascadeSave`, `CascadeDelete`, `cascadeSaveWithConfig` and
`cascadeDeleteWithConfig`.  The store client (`conf.Collection.UpdateAll`) is an explicit
parameter threaded through the code as state passing, so the same embedding of the source
runs against a recording client (which updates are issued, whatever the store answers) and
against a document store (what the updates do to the stored documents).
-/

namespace Bongo

/-! ## Values and maps -/

/-- Dynamic values that travel through `interface{}`: Go `nil`, strings, integers,
`bson.ObjectId`, nested maps and arrays. -/
inductive Value where
  | null : Value
  | str (s : String) : Value
  | int (n : Int) : Value
  | oid (hex : String) : Value
  | doc (fields : List (String × Value)) : Value
  | arr (elems : List Value) : Value

/-- Go `map[string]interface{}` and `bson.M`: an association list read by first occurrence. -/
abbrev M := List (String × Value)

mutual
/-- Decidable equality of values, by structural recursion. -/
def Value.decEq : (a b : Value) → Decidable (a = b)
  | .null, .null => isTrue rfl
  | .str s, .str t =>
    if h : s = t then isTrue (by rw [h]) else isFalse (by intro e; cases e; exact h rfl)
  | .int s, .int t =>
    if h : s = t then isTrue (by rw [h]) else isFalse (by intro e; cases e; exact h rfl)
  | .oid s, .oid t =>
    if h : s = t then isTrue (by rw [h]) else isFalse (by intro e; cases e; exact h rfl)
  | .doc s, .doc t =>
    match Value.decEqFields s t with
    | isTrue h => isTrue (by rw [h])
    | isFalse h => isFalse (by intro e; cases e; exact h rfl)
  | .arr s, .arr t =>
    match Value.decEqElems s t with
    | isTrue h => isTrue (by rw [h])
    | isFalse h => isFalse (by intro e; cases e; exact h rfl)
  | .null, .str _ => isFalse (by intro e; cases e)
  | .null, .int _ => isFalse (by intro e; cases e)
  | .null, .oid _ => isFalse (by intro e; cases e)
  | .null, .doc _ => isFalse (by intro e; cases e)
  | .null, .arr _ => isFalse (by intro e; cases e)
  | .str _, .null => isFalse (by intro e; cases e)
  | .str _, .int _ => isFalse (by intro e; cases e)
  | .str _, .oid _ => isFalse (by intro e; cases e)
  | .str _, .doc _ => isFalse (by intro e; cases e)
  | .str _, .arr _ => isFalse (by intro e; cases e)
  | .int _, .null => isFalse (by intro e; cases e)
  | .int _, .str _ => isFalse (by intro e; cases e)
  | .int _, .oid _ => isFalse (by intro e; cases e)
  | .int _, .doc _ => isFalse (by intro e; cases e)
  | .int _, .arr _ => isFalse (by intro e; cases e)
  | .oid _, .null => isFalse (by intro e; cases e)
  | .oid _, .str _ => isFalse (by intro e; cases e)
  | .oid _, .int _ => isFalse (by intro e; cases e)
  | .oid _, .doc _ => isFalse (by intro e; cases e)
  | .oid _, .arr _ => isFalse (by intro e; cases e)
  | .doc _, .null => isFalse (by intro e; cases e)
  | .doc _, .str _ => isFalse (by intro e; cases e)
  | .doc _, .int _ => isFalse (by intro e; cases e)
  | .doc _, .oid _ => isFalse (by intro e; cases e)
  | .doc _, .arr _ => isFalse (by intro e; cases e)
  | .arr _, .null => isFalse (by intro e; cases e)
  | .arr _, .str _ => isFalse (by intro e; cases e)
  | .arr _, .int _ => isFalse (by intro e; cases e)
  | .arr _, .oid _ => isFalse (by intro e; cases e)
  | .arr _, .doc _ => isFalse (by intro e; cases e)
/-- Decidable equality of field lists. -/
def Value.decEqFields : (a b : List (String × Value)) → Decidable (a = b)
  | [], [] => isTrue rfl
  | [], _ :: _ => isFalse (by intro e; cases e)
  | _ :: _, [] => isFalse (by intro e; cases e)
  | (k, v) :: xs, (l, w) :: ys =>
    if hk : k = l then
      match Value.decEq v w with
      | isTrue hv =>
        match Value.decEqFields xs ys with
        | isTrue hr => isTrue (by rw [hk, hv, hr])
        | isFalse hr => isFalse (by intro e; cases e; exact hr rfl)
      | isFalse hv => isFalse (by intro e; cases e; exact hv rfl)
    else isFalse (by intro e; cases e; exact hk rfl)
/-- Decidable equality of element lists. -/
def Value.decEqElems : (a b : List Value) → Decidable (a = b)
  | [], [] => isTrue rfl
  | [], _ :: _ => isFalse (by intro e; cases e)
  | _ :: _, [] => isFalse (by intro e; cases e)
  | v :: xs, w :: ys =>
    match Value.decEq v w with
    | isTrue hv =>
      match Value.decEqElems xs ys with
      | isTrue hr => isTrue (by rw [hv, hr])
      | isFalse hr => isFalse (by intro e; cases e; exact hr rfl)
    | isFalse hv => isFalse (by intro e; cases e; exact hv rfl)
end

instance : DecidableEq Value := Value.decEq

/-- Go map read `m[k]`: the value bound to `k`, and `nil` when the key is absent. -/
def mget : M → String → Value
  | [], _ => Value.null
  | (k, v) :: rest, key => if k = key then v else mget rest key

/-- Go map write `m[k] = v`: rebinds `k` when it is present, adds the binding otherwise. -/
def mset : M → String → Value → M
  | [], key, v => [(key, v)]
  | (k, w) :: rest, key, v => if k = key then (k, v) :: rest else (k, w) :: mset rest key v

/-- The keys bound in a map. -/
def mkeys (m : M) : List String := m.map Prod.fst

/-! ## cascade.go -/

/-- Line 15 of cascade.go: `REL_MANY = iota`, the first constant of the block. -/
def REL_MANY : Int := 0

/-- Line 16 of cascade.go: `REL_ONE = iota`, the second constant of the block. -/
def REL_ONE : Int := 1

/-- The struct `CascadeConfig`.  `Collection` is the identity of the `*mgo.Collection`
handle the updates are sent to. -/
structure CascadeConfig where
  Collection : String
  RelType : Int
  ThroughProp : String
  Query : M
  OldQuery : M
  Properties : List String
  deriving DecidableEq

/-- The counters of `mgo.ChangeInfo`. -/
structure ChangeInfo where
  Updated : Int
  Removed : Int
  deriving DecidableEq

/-- A Go result pair `(*mgo.ChangeInfo, error)`; the error is `none` for `nil`. -/
abbrev Result := ChangeInfo × Option String

/-- The update document `map[string]map[string]interface{}`: operator, then path, then
argument. -/
abbrev Update := List (String × M)

/-- The store client the engine talks to: `UpdateAll` on the collection handle `coll`, with a
query and an update document, answers a result and moves the store from one state to the
next. -/
structure Client (σ : Type) where
  UpdateAll : String → M → Update → σ → Result × σ

/-- Lines 109 to 117 of cascade.go: the local `data`, the map that is written into the
related documents. -/
def buildData (conf : CascadeConfig) (preparedForSave : M) : M :=
  let id := mget preparedForSave "_id"
  let data : M := mset [] "_id" id
  conf.Properties.foldl (fun data prop => mset data prop (mget preparedForSave prop)) data

/-- The function `cascadeSaveWithConfig` (lines 106 to 167), over a store client. -/
def cascadeSaveWithConfig {σ : Type} (cl : Client σ) (conf : CascadeConfig)
    (preparedForSave : M) (s : σ) : Result × σ :=
  let id := mget preparedForSave "_id"
  let data := buildData conf preparedForSave
  if conf.RelType = REL_ONE then
    let s1 :=
      if conf.OldQuery.length > 0 then
        let update1 : Update := [("$set", mset [] conf.ThroughProp Value.null)]
        (cl.UpdateAll conf.Collection conf.OldQuery update1 s).2
      else s
    let update : Update := [("$set", mset [] conf.ThroughProp (Value.doc data))]
    cl.UpdateAll conf.Collection conf.Query update s1
  else if conf.RelType = REL_MANY then
    let update1 : Update := [("$pull", mset [] conf.ThroughProp (Value.doc [("_id", id)]))]
    let s1 :=
      if conf.OldQuery.length > 0 then
        (cl.UpdateAll conf.Collection conf.OldQuery update1 s).2
      else s
    let s2 := (cl.UpdateAll conf.Collection conf.Query update1 s1).2
    let update2 : Update := [("$push", mset [] conf.ThroughProp (Value.doc data))]
    cl.UpdateAll conf.Collection conf.Query update2 s2
  else
    ((⟨0, 0⟩, some "Invalid relation type"), s)

/-- The function `cascadeDeleteWithConfig` (lines 81 to 103), over a store client.  The
identifier is a `bson.ObjectId`, given by its hex string. -/
def cascadeDeleteWithConfig {σ : Type} (cl : Client σ) (conf : CascadeConfig)
    (id : String) (s : σ) : Result × σ :=
  if conf.RelType = REL_ONE then
    let update : Update := [("$set", mset [] conf.ThroughProp Value.null)]
    cl.UpdateAll conf.Collection conf.Query update s
  else if conf.RelType = REL_MANY then
    let update : Update := [("$pull", mset [] conf.ThroughProp (Value.doc [("_id", Value.oid id)]))]
    cl.UpdateAll conf.Collection conf.Query update s
  else
    ((⟨0, 0⟩, some "Invalid relation type"), s)

/-- What `CascadeSave` and `CascadeDelete` see of their argument `doc interface{}`:
`GetCascade` is the result of the method when the dynamic type has it (`none` when the type
assertion of lines 44 and 58 fails), `Id` is the value of the struct field named `Id`
(`none` when the lookup by name fails: no such field, or not a struct). -/
structure Document where
  GetCascade : Option (List CascadeConfig)
  Id : Option Value

/-- How a call ends: it returns, or it panics with an error value. -/
inductive Outcome where
  | returned : Outcome
  | panicked (err : String) : Outcome
  deriving DecidableEq

/-- The call `reflections.GetField(doc, "Id")` of line 64: the field value, or an error
when the field does not exist. -/
def GetField (doc : Document) : Except String Value :=
  match doc.Id with
  | some v => Except.ok v
  | none => Except.error "No such field: Id in obj"

/-- The function `CascadeSave` (lines 42 to 53): the results of the per-config calls are
dropped, the store state is threaded through the loop. -/
def CascadeSave {σ : Type} (cl : Client σ) (doc : Document) (preparedForSave : M)
    (s : σ) : σ :=
  match doc.GetCascade with
  | some toCascade =>
    toCascade.foldl (fun s conf => (cascadeSaveWithConfig cl conf preparedForSave s).2) s
  | none => s

/-- The function `CascadeDelete` (lines 56 to 78). -/
def CascadeDelete {σ : Type} (cl : Client σ) (doc : Document) (s : σ) : Outcome × σ :=
  match doc.GetCascade with
  | some toCascade =>
    match GetField doc with
    | Except.error err => (Outcome.panicked err, s)
    | Except.ok id =>
      match id with
      | Value.oid bsonId =>
        (Outcome.returned,
          toCascade.foldl (fun s conf => (cascadeDeleteWithConfig cl conf bsonId s).2) s)
      | _ => (Outcome.returned, s)
  | none => (Outcome.returned, s)

/-! ## Store clients -/

/-- One call of `UpdateAll`, as the store receives it. -/
structure UpdateCall where
  coll : String
  query : M
  update : Update
  deriving DecidableEq

/-- A client that records every call in order and answers whatever `oracle` decides from the
calls seen so far and the current one: any pattern of successes and failures is an oracle. -/
def recorder (oracle : List UpdateCall → UpdateCall → Result) : Client (List UpdateCall) where
  UpdateAll := fun coll q u log => (oracle log ⟨coll, q, u⟩, log ++ [⟨coll, q, u⟩])

/-- An equality predicate on a document: every field of `cond` is bound to the same value in
`d` (an absent field reads as null). The empty predicate holds of every document. -/
def eqMatch (cond : M) (d : M) : Bool :=
  cond.all (fun kv => decide (mget d kv.1 = kv.2))

/-- The elements of the array held at `path`; a path that holds no array has none. -/
def arrayAt (d : M) (path : String) : List Value :=
  match mget d path with
  | Value.arr xs => xs
  | _ => []

/-- Whether an array element satisfies the sub-predicate of a pull: a predicate document is
matched field by field against document elements, any other argument by equality. -/
def pullMatch (arg : Value) (e : Value) : Bool :=
  match arg, e with
  | Value.doc cond, Value.doc fields => eqMatch cond fields
  | Value.doc _, _ => false
  | a, b => decide (a = b)

/-- Modelled from the spec: the update operators of the store client (section 6), which
lives outside the repository. Field set replaces the value at the path (null included);
array pull removes the array elements matching the sub-predicate and leaves a path without
an array alone; array push appends one value to the array at the path, a path that holds no
array being read as the empty array. A path is one field name of the document. -/
def applyOp (op : String) (path : String) (arg : Value) (d : M) : M :=
  if op = "$set" then mset d path arg
  else if op = "$pull" then
    match mget d path with
    | Value.arr xs => mset d path (Value.arr (xs.filter (fun e => !pullMatch arg e)))
    | _ => d
  else if op = "$push" then mset d path (Value.arr (arrayAt d path ++ [arg]))
  else d

/-- An update document applied to one stored document, operator by operator. -/
def applyUpdate (u : Update) (d : M) : M :=
  u.foldl (fun d opArgs => opArgs.2.foldl (fun d pv => applyOp opArgs.1 pv.1 pv.2 d) d) d

/-- The stored documents of every collection. -/
abbrev DB := String → List M

/-- What one `UpdateAll` does to one stored document: the update when the query matches it,
nothing otherwise. -/
def updateDoc (matchesQ : M → M → Bool) (q : M) (u : Update) (d : M) : M :=
  if matchesQ q d then applyUpdate u d else d

/-- Modelled from the spec: `UpdateAll` of the store client (section 6) as a document store.
Every document of the collection that the query matches gets the update, the others are left
as they are, and the answer counts the matched documents. The query language is the
parameter `matchesQ`. -/
def docStore (matchesQ : M → M → Bool) : Client DB where
  UpdateAll := fun coll q u db =>
    ((⟨((db coll).filter (fun d => matchesQ q d)).length, 0⟩, none),
      Function.update db coll ((db coll).map (updateDoc matchesQ q u)))

/-- Whether an array element is a document whose `_id` is `id`. -/
def hasId (id : Value) (e : Value) : Bool :=
  match e with
  | Value.doc fields => decide (mget fields "_id" = id)
  | _ => false

/-! ## Worked examples -/

/-- A parent document that holds an old copy of child c1, as single reference and in its
array. -/
def exParent0 : M :=
  [("_id", Value.str "p0"),
   ("child", Value.doc [("_id", Value.str "c1"), ("name", Value.str "old")]),
   ("children", Value.arr [Value.doc [("_id", Value.str "c1"), ("name", Value.str "old")]])]

/-- A parent document that holds a copy of another child, c2. -/
def exParent1 : M :=
  [("_id", Value.str "p1"),
   ("child", Value.doc [("_id", Value.str "c2"), ("name", Value.str "Y")]),
   ("children", Value.arr [Value.doc [("_id", Value.str "c2"), ("name", Value.str "Y")]])]

/-- A store with one collection, parents, holding the two parent documents. -/
def exDB : DB := fun c => if c = "parents" then [exParent0, exParent1] else []

/-- The prepared snapshot of child c1. -/
def exSnap : M := [("_id", Value.str "c1"), ("name", Value.str "X"), ("secret", Value.int 3)]

/-- Scenario C with a moved relation: child c1 now belongs to p1 and used to belong to p0. -/
def exManyMoved : CascadeConfig :=
  ⟨"parents", REL_MANY, "children", [("_id", Value.str "p1")], [("_id", Value.str "p0")],
    ["name"]⟩

/-- Scenario C as the spec gives it: no old query. -/
def exManyNoOld : CascadeConfig :=
  ⟨"parents", REL_MANY, "children", [("_id", Value.str "p1")], [], ["name"]⟩

/-- Scenario B: a single reference moved from p0 to p1. -/
def exOneMoved : CascadeConfig :=
  ⟨"parents", REL_ONE, "child", [("_id", Value.str "p1")], [("_id", Value.str "p0")],
    ["name"]⟩

/-- A store whose parent p1 holds copies of the children aa and bb, keyed by ObjectId, and
whose parent p2 holds aa as well. -/
def exOidDB : DB := fun c =>
  if c = "parents" then
    [[("_id", Value.str "p1"),
      ("children", Value.arr [Value.doc [("_id", Value.oid "aa"), ("name", Value.str "A")],
        Value.doc [("_id", Value.oid "bb"), ("name", Value.str "B")],
        Value.doc [("_id", Value.oid "aa"), ("name", Value.str "A again")],
        Value.int 7])],
     [("_id", Value.str "p2"),
      ("children", Value.arr [Value.doc [("_id", Value.oid "aa"), ("name", Value.str "A")]])]]
  else []

/-- A config whose relation type is neither of the two constants. -/
def exInvalid : CascadeConfig :=
  ⟨"parents", 7, "children", [("_id", Value.str "p1")], [("_id", Value.str "p0")], ["name"]⟩

/-- A store that fails its first two calls and succeeds afterwards. -/
def exFailFirstTwo : List UpdateCall → UpdateCall → Result :=
  fun log _ => if log.length < 2 then (⟨0, 0⟩, some "connection lost") else (⟨1, 0⟩, none)

/-- A document with cascade configs whose Id field holds a string, not an ObjectId. -/
def exDocStringId : Document := ⟨some [exManyMoved, exOneMoved], some (Value.str "c1")⟩

/-- A document with cascade configs and no Id field. -/
def exDocNoId : Document := ⟨some [exManyMoved, exOneMoved], none⟩

/-- A document with an ObjectId and three configs, the middle one invalid. -/
def exDocOid : Document := ⟨some [exManyMoved, exInvalid, exOneMoved], some (Value.oid "aa")⟩

/-- A document whose type has no GetCascade method and no Id field. -/
def exDocNoCascade : Document := ⟨none, none⟩

/-- A config that names the property b of the nested map a in dot notation. -/
def exDotted : CascadeConfig :=
  ⟨"parents", REL_ONE, "child", [("_id", Value.str "p1")], [], ["a.b"]⟩

/-- A snapshot whose key a holds a nested map that binds b, with no key named a.b. -/
def exDottedSnap : M :=
  [("_id", Value.str "c1"), ("a", Value.doc [("b", Value.str "v")])]

/-- A config whose RelType was left at the zero value of int. -/
def exUnset : CascadeConfig :=
  ⟨"parents", 0, "children", [("_id", Value.str "p1")], [("_id", Value.str "p0")], ["name"]⟩

/-! ## Maps: reads after writes -/

theorem mget_mset_same (m : M) (k : String) (v : Value) : mget (mset m k v) k = v := by
  induction m with
  | nil => simp [mset, mget]
  | cons kv rest ih =>
    obtain ⟨k0, w⟩ := kv
    by_cases h : k0 = k
    · simp [mset, mget, h]
    · simp [mset, mget, h, ih]

theorem mget_mset_ne (m : M) (k k1 : String) (v : Value) (h : k ≠ k1) :
    mget (mset m k v) k1 = mget m k1 := by
  induction m with
  | nil => simp [mset, mget, h]
  | cons kv rest ih =>
    obtain ⟨k0, w⟩ := kv
    by_cases h0 : k0 = k
    · subst h0
      simp [mset, mget, h]
    · simp only [mset, h0, if_false, mget, ih]

theorem mset_mset_same (m : M) (k : String) (v w : Value) :
    mset (mset m k v) k w = mset m k w := by
  induction m with
  | nil => simp [mset]
  | cons kv rest ih =>
    obtain ⟨k0, u⟩ := kv
    by_cases h : k0 = k
    · simp [mset, h]
    · simp [mset, h, ih]

theorem mkeys_mset (m : M) (k : String) (v : Value) (x : String) :
    x ∈ mkeys (mset m k v) ↔ x = k ∨ x ∈ mkeys m := by
  induction m with
  | nil => simp [mset, mkeys]
  | cons kv rest ih =>
    obtain ⟨k0, u⟩ := kv
    by_cases h : k0 = k
    · subst h
      simp [mset, mkeys]
    · simp only [mkeys] at ih
      simp only [mset, h, if_false, mkeys, List.map_cons, List.mem_cons, ih]
      tauto

theorem mkeys_mset_nodup (m : M) (k : String) (v : Value) (h : (mkeys m).Nodup) :
    (mkeys (mset m k v)).Nodup := by
  induction m with
  | nil => simp [mset, mkeys]
  | cons kv rest ih =>
    obtain ⟨k0, u⟩ := kv
    by_cases h0 : k0 = k
    · subst h0
      simpa [mset, mkeys] using h
    · have hr : (mkeys rest).Nodup := by
        simp only [mkeys, List.map_cons, List.nodup_cons] at h
        exact h.2
      have hk : k0 ∉ mkeys rest := by
        simp only [mkeys, List.map_cons, List.nodup_cons] at h
        exact h.1
      have := ih hr
      simp only [mset, h0, if_false]
      show (k0 :: mkeys (mset rest k v)).Nodup
      rw [List.nodup_cons]
      refine ⟨?_, this⟩
      rw [mkeys_mset]
      rintro (e | e)
      · exact h0 e
      · exact hk e

/-! ## The replication payload -/

theorem mget_of_not_mem (m : M) (k : String) (h : k ∉ mkeys m) : mget m k = Value.null := by
  induction m with
  | nil => rfl
  | cons kv rest ih =>
    obtain ⟨k0, u⟩ := kv
    simp only [mkeys, List.map_cons, List.mem_cons, not_or] at h
    have h0 : k0 ≠ k := fun e => h.1 e.symm
    simp only [mget, h0, if_false]
    exact ih h.2

/-- The loop of lines 115 to 117, from any starting map: the keys afterwards. -/
theorem foldl_props_keys (snap : M) (props : List String) (acc : M) (x : String) :
    x ∈ mkeys (props.foldl (fun data prop => mset data prop (mget snap prop)) acc) ↔
      x ∈ props ∨ x ∈ mkeys acc := by
  induction props generalizing acc with
  | nil => simp
  | cons p ps ih =>
    simp only [List.foldl_cons, ih, mkeys_mset, List.mem_cons]
    tauto

theorem foldl_props_nodup (snap : M) (props : List String) (acc : M) (h : (mkeys acc).Nodup) :
    (mkeys (props.foldl (fun data prop => mset data prop (mget snap prop)) acc)).Nodup := by
  induction props generalizing acc with
  | nil => simpa using h
  | cons p ps ih =>
    simp only [List.foldl_cons]
    exact ih _ (mkeys_mset_nodup acc p _ h)

theorem foldl_props_values (snap : M) (props : List String) (acc : M)
    (h : ∀ k, k ∈ mkeys acc → mget acc k = mget snap k) (k : String)
    (hk : k ∈ mkeys (props.foldl (fun data prop => mset data prop (mget snap prop)) acc)) :
    mget (props.foldl (fun data prop => mset data prop (mget snap prop)) acc) k = mget snap k := by
  induction props generalizing acc with
  | nil => exact h k (by simpa using hk)
  | cons p ps ih =>
    simp only [List.foldl_cons] at hk ⊢
    refine ih _ ?_ hk
    intro j hj
    by_cases e : p = j
    · subst e
      exact mget_mset_same acc p _
    · rw [mget_mset_ne acc p j _ e]
      rw [mkeys_mset] at hj
      rcases hj with hj | hj
      · exact absurd hj.symm e
      · exact h j hj

theorem buildData_keys (conf : CascadeConfig) (snap : M) (k : String) :
    k ∈ mkeys (buildData conf snap) ↔ k = "_id" ∨ k ∈ conf.Properties := by
  unfold buildData
  rw [foldl_props_keys]
  simp only [mset, mkeys, List.map_cons, List.map_nil, List.mem_singleton]
  tauto

theorem buildData_get (conf : CascadeConfig) (snap : M) (k : String)
    (hk : k ∈ mkeys (buildData conf snap)) : mget (buildData conf snap) k = mget snap k := by
  unfold buildData at hk ⊢
  refine foldl_props_values snap conf.Properties _ ?_ k hk
  intro j hj
  simp only [mset, mkeys, List.map_cons, List.map_nil, List.mem_singleton] at hj
  subst hj
  simp [mset, mget]

theorem buildData_id (conf : CascadeConfig) (snap : M) :
    mget (buildData conf snap) "_id" = mget snap "_id" :=
  buildData_get conf snap "_id" ((buildData_keys conf snap "_id").2 (Or.inl rfl))

/-! ## The store operators on one document -/

theorem applyUpdate_single (op path : String) (arg : Value) (d : M) :
    applyUpdate [(op, mset [] path arg)] d = applyOp op path arg d := by
  simp [applyUpdate, mset]

theorem pullMatch_id (id : Value) (e : Value) :
    pullMatch (Value.doc [("_id", id)]) e = hasId id e := by
  cases e <;> simp [pullMatch, hasId, eqMatch]

/-- A pull of the elements with `_id = id`, on one document. -/
theorem applyOp_pull (path : String) (id : Value) (d : M) :
    applyOp "$pull" path (Value.doc [("_id", id)]) d =
      match mget d path with
      | Value.arr xs => mset d path (Value.arr (xs.filter (fun e => !hasId id e)))
      | _ => d := by
  have h1 : ("$pull" = "$set") = False := by decide
  simp only [applyOp, h1, if_false, if_true, pullMatch_id]

theorem applyOp_push (path : String) (v : Value) (d : M) :
    applyOp "$push" path v d = mset d path (Value.arr (arrayAt d path ++ [v])) := by
  have h1 : ("$push" = "$set") = False := by decide
  have h2 : ("$push" = "$pull") = False := by decide
  simp only [applyOp, h1, h2, if_false, if_true]

theorem applyOp_set (path : String) (v : Value) (d : M) :
    applyOp "$set" path v d = mset d path v := by
  simp only [applyOp, if_true]

theorem arrayAt_mset (d : M) (path : String) (xs : List Value) :
    arrayAt (mset d path (Value.arr xs)) path = xs := by
  simp [arrayAt, mget_mset_same]

/-- The array after a pull is the array before without the elements carrying the id. -/
theorem arrayAt_pull (path : String) (id : Value) (d : M) :
    arrayAt (applyOp "$pull" path (Value.doc [("_id", id)]) d) path =
      (arrayAt d path).filter (fun e => !hasId id e) := by
  rw [applyOp_pull]
  cases h : mget d path <;> simp [arrayAt, h, mget_mset_same]

/-- A pull leaves the document alone or rewrites the one path. -/
theorem pull_shape (path : String) (id : Value) (d : M) :
    applyOp "$pull" path (Value.doc [("_id", id)]) d = d ∨
      ∃ w, applyOp "$pull" path (Value.doc [("_id", id)]) d = mset d path w := by
  rw [applyOp_pull]
  cases h : mget d path
  case arr xs => exact Or.inr ⟨_, rfl⟩
  all_goals exact Or.inl rfl

theorem matches_pull (matchesQ : M → M → Bool) (q : M) (path : String)
    (hq : ∀ d v, matchesQ q (mset d path v) = matchesQ q d) (id : Value) (d : M) :
    matchesQ q (applyOp "$pull" path (Value.doc [("_id", id)]) d) = matchesQ q d := by
  rcases pull_shape path id d with h | ⟨w, h⟩
  · rw [h]
  · rw [h, hq]

/-- Pull then push, on one document: the array without the id, then the new element. -/
theorem push_pull (path : String) (id v : Value) (d : M) :
    applyOp "$push" path v (applyOp "$pull" path (Value.doc [("_id", id)]) d) =
      mset d path (Value.arr ((arrayAt d path).filter (fun e => !hasId id e) ++ [v])) := by
  rw [applyOp_push, arrayAt_pull, applyOp_pull]
  cases h : mget d path <;> simp [mset_mset_same]

theorem pull_pull (path : String) (id : Value) (d : M) :
    applyOp "$pull" path (Value.doc [("_id", id)])
        (applyOp "$pull" path (Value.doc [("_id", id)]) d) =
      applyOp "$pull" path (Value.doc [("_id", id)]) d := by
  rw [applyOp_pull path id d]
  cases h : mget d path
  case arr xs =>
    simp only [applyOp_pull, mget_mset_same, mset_mset_same, List.filter_filter, Bool.and_self]
  all_goals simp only [applyOp_pull, h]

/-! ## REL_MANY save on the document store -/

theorem docStore_snd (matchesQ : M → M → Bool) (c : String) (q : M) (u : Update) (db : DB) :
    ((docStore matchesQ).UpdateAll c q u db).2 =
      Function.update db c ((db c).map (updateDoc matchesQ q u)) := rfl

theorem update_update_map (db : DB) (c : String) (f g : M → M) :
    Function.update (Function.update db c ((db c).map f)) c
        (((Function.update db c ((db c).map f)) c).map g) =
      Function.update db c ((db c).map (fun d => g (f d))) := by
  rw [Function.update_same, Function.update_idem, List.map_map]
  rfl

/-- The store after a REL_MANY save: every document of the collection goes through the
three updates in turn. -/
theorem save_many_store (matchesQ : M → M → Bool) (db : DB) (conf : CascadeConfig) (snap : M)
    (hrel : conf.RelType = REL_MANY) :
    (cascadeSaveWithConfig (docStore matchesQ) conf snap db).2 =
      Function.update db conf.Collection ((db conf.Collection).map (fun d =>
        updateDoc matchesQ conf.Query
          [("$push", mset [] conf.ThroughProp (Value.doc (buildData conf snap)))]
          (updateDoc matchesQ conf.Query
            [("$pull", mset [] conf.ThroughProp (Value.doc [("_id", mget snap "_id")]))]
            (if conf.OldQuery.length > 0 then
              updateDoc matchesQ conf.OldQuery
                [("$pull", mset [] conf.ThroughProp (Value.doc [("_id", mget snap "_id")]))] d
            else d)))) := by
  have h1 : (REL_MANY = REL_ONE) = False := by decide
  simp only [cascadeSaveWithConfig, hrel, h1, if_false, if_true, docStore_snd]
  by_cases hO : conf.OldQuery.length > 0
  · simp only [hO, if_true, update_update_map]
  · simp only [hO, if_false, update_update_map]

theorem hasId_buildData (conf : CascadeConfig) (snap : M) :
    hasId (mget snap "_id") (Value.doc (buildData conf snap)) = true := by
  simp [hasId, buildData_id]

theorem filter_after_push (id v : Value) (hv : hasId id v = true) (xs : List Value) :
    ((xs.filter (fun e => !hasId id e)) ++ [v]).filter (fun e => !hasId id e) =
      xs.filter (fun e => !hasId id e) := by
  simp [List.filter_append, List.filter_filter, hv]

theorem filter_has_after_push (id v : Value) (hv : hasId id v = true) (xs : List Value) :
    ((xs.filter (fun e => !hasId id e)) ++ [v]).filter (hasId id) = [v] := by
  simp [List.filter_append, List.filter_filter, hv]

theorem filter_has_after_pull (id : Value) (xs : List Value) :
    (xs.filter (fun e => !hasId id e)).filter (hasId id) = [] := by
  simp [List.filter_filter]

/-- The three updates of a REL_MANY save on one document, when neither query reads the
through-property. -/
theorem many_doc_eq (matchesQ : M → M → Bool) (conf : CascadeConfig) (snap : M)
    (hQ : ∀ d v, matchesQ conf.Query (mset d conf.ThroughProp v) = matchesQ conf.Query d)
    (d : M) :
    updateDoc matchesQ conf.Query
        [("$push", mset [] conf.ThroughProp (Value.doc (buildData conf snap)))]
        (updateDoc matchesQ conf.Query
          [("$pull", mset [] conf.ThroughProp (Value.doc [("_id", mget snap "_id")]))]
          (if conf.OldQuery.length > 0 then
            updateDoc matchesQ conf.OldQuery
              [("$pull", mset [] conf.ThroughProp (Value.doc [("_id", mget snap "_id")]))] d
          else d)) =
      if matchesQ conf.Query d = true then
        mset d conf.ThroughProp (Value.arr
          ((arrayAt d conf.ThroughProp).filter (fun e => !hasId (mget snap "_id") e) ++
            [Value.doc (buildData conf snap)]))
      else if conf.OldQuery.length > 0 ∧ matchesQ conf.OldQuery d = true then
        applyOp "$pull" conf.ThroughProp (Value.doc [("_id", mget snap "_id")]) d
      else d := by
  simp only [updateDoc, applyUpdate_single]
  by_cases hO : conf.OldQuery.length > 0 <;> by_cases hm : matchesQ conf.OldQuery d = true <;>
    by_cases hq : matchesQ conf.Query d = true <;>
    simp [hO, hm, hq, matches_pull matchesQ conf.Query conf.ThroughProp hQ, push_pull, pull_pull]


/-- The per-document effect of a REL_MANY save, applied twice, is the effect applied once. -/
theorem many_doc_idem (matchesQ : M → M → Bool) (conf : CascadeConfig) (snap : M)
    (hQ : ∀ d v, matchesQ conf.Query (mset d conf.ThroughProp v) = matchesQ conf.Query d)
    (hOQ : ∀ d v, matchesQ conf.OldQuery (mset d conf.ThroughProp v) = matchesQ conf.OldQuery d)
    (F : M → M)
    (hF : ∀ d, F d =
      if matchesQ conf.Query d = true then
        mset d conf.ThroughProp (Value.arr
          ((arrayAt d conf.ThroughProp).filter (fun e => !hasId (mget snap "_id") e) ++
            [Value.doc (buildData conf snap)]))
      else if conf.OldQuery.length > 0 ∧ matchesQ conf.OldQuery d = true then
        applyOp "$pull" conf.ThroughProp (Value.doc [("_id", mget snap "_id")]) d
      else d)
    (d : M) : F (F d) = F d := by
  by_cases hq : matchesQ conf.Query d = true
  · have e1 : F d = mset d conf.ThroughProp (Value.arr
          ((arrayAt d conf.ThroughProp).filter (fun e => !hasId (mget snap "_id") e) ++
            [Value.doc (buildData conf snap)])) := by rw [hF d, if_pos hq]
    rw [e1, hF, hQ, if_pos hq, arrayAt_mset, mset_mset_same,
      filter_after_push _ _ (hasId_buildData conf snap)]
  · by_cases hm : conf.OldQuery.length > 0 ∧ matchesQ conf.OldQuery d = true
    · have e1 : F d = applyOp "$pull" conf.ThroughProp (Value.doc [("_id", mget snap "_id")]) d := by
        rw [hF d, if_neg hq, if_pos hm]
      rw [e1, hF, matches_pull matchesQ conf.Query conf.ThroughProp hQ, if_neg hq,
        matches_pull matchesQ conf.OldQuery conf.ThroughProp hOQ, if_pos hm, pull_pull]
    · have e1 : F d = d := by rw [hF d, if_neg hq, if_neg hm]
      rw [e1, e1]


theorem eqMatch_mset (q : M) (path : String) (hp : path ∉ mkeys q) (d : M) (v : Value) :
    eqMatch q (mset d path v) = eqMatch q d := by
  induction q with
  | nil => rfl
  | cons kv rest ih =>
    simp only [mkeys, List.map_cons, List.mem_cons, not_or] at hp
    have ih1 := ih hp.2
    simp only [eqMatch, List.all_cons] at ih1 ⊢
    rw [ih1, mget_mset_ne d path kv.1 v hp.1]

/-- C1 (amended): a REL_MANY save leaves exactly one copy and is idempotent. Over the document
store, for a config with RelType = REL_MANY whose Query and OldQuery do not read the
through-property, after cascadeSaveWithConfig every document matches the same queries as
before; in every document matching Query the elements with the snapshot id in the
through-property array are exactly the one payload; every document matching a non-empty
OldQuery but not Query has no such element; and saving a second time with the same config and
snapshot leaves the store as it is. -/
theorem relMany_save_one_copy_idempotent (matchesQ : M → M → Bool) (db : DB)
    (conf : CascadeConfig) (snap : M)
    (hrel : conf.RelType = REL_MANY)
    (hQ : ∀ d v, matchesQ conf.Query (mset d conf.ThroughProp v) = matchesQ conf.Query d)
    (hOQ : ∀ d v,
      matchesQ conf.OldQuery (mset d conf.ThroughProp v) = matchesQ conf.OldQuery d) :
    List.Forall₂
        (fun d d1 =>
          (matchesQ conf.Query d1 = matchesQ conf.Query d ∧
            matchesQ conf.OldQuery d1 = matchesQ conf.OldQuery d) ∧
          (matchesQ conf.Query d = true →
            (arrayAt d1 conf.ThroughProp).filter (hasId (mget snap "_id")) =
              [Value.doc (buildData conf snap)]) ∧
          (conf.OldQuery ≠ [] → matchesQ conf.OldQuery d = true →
            matchesQ conf.Query d = false →
            (arrayAt d1 conf.ThroughProp).filter (hasId (mget snap "_id")) = []))
        (db conf.Collection)
        ((cascadeSaveWithConfig (docStore matchesQ) conf snap db).2 conf.Collection) ∧
      (cascadeSaveWithConfig (docStore matchesQ) conf snap
          (cascadeSaveWithConfig (docStore matchesQ) conf snap db).2).2 =
        (cascadeSaveWithConfig (docStore matchesQ) conf snap db).2 := by
  have hstore := save_many_store matchesQ db conf snap hrel
  have hdoc := many_doc_eq matchesQ conf snap hQ
  constructor
  · rw [hstore, Function.update_same, List.forall₂_map_right_iff, List.forall₂_same]
    intro d _
    rw [hdoc d]
    refine ⟨?_, ?_, ?_⟩
    · by_cases hq : matchesQ conf.Query d = true
      · rw [if_pos hq, hQ, hOQ]
        exact ⟨rfl, rfl⟩
      · by_cases hm : conf.OldQuery.length > 0 ∧ matchesQ conf.OldQuery d = true
        · rw [if_neg hq, if_pos hm,
            matches_pull matchesQ conf.Query conf.ThroughProp hQ,
            matches_pull matchesQ conf.OldQuery conf.ThroughProp hOQ]
          exact ⟨rfl, rfl⟩
        · rw [if_neg hq, if_neg hm]
          exact ⟨rfl, rfl⟩
    · intro hq
      rw [if_pos hq, arrayAt_mset,
        filter_has_after_push _ _ (hasId_buildData conf snap)]
    · intro hne hm hq
      have hq1 : ¬ (matchesQ conf.Query d = true) := by simp [hq]
      have hlen : conf.OldQuery.length > 0 := List.length_pos.2 hne
      rw [if_neg hq1, if_pos ⟨hlen, hm⟩, arrayAt_pull, filter_has_after_pull]
  · rw [save_many_store matchesQ _ conf snap hrel, hstore, update_update_map]
    apply congrArg (Function.update db conf.Collection)
    apply List.map_congr_left
    intro d _
    exact many_doc_idem matchesQ conf snap hQ hOQ _ (many_doc_eq matchesQ conf snap hQ) d


/-- C1, witness: Scenario C with the relation moved from p0 to p1. -/
theorem relMany_save_one_copy_idempotent_witness :
    exManyMoved.RelType = REL_MANY ∧
    (List.Forall₂
        (fun d d1 =>
          (eqMatch exManyMoved.Query d1 = eqMatch exManyMoved.Query d ∧
            eqMatch exManyMoved.OldQuery d1 = eqMatch exManyMoved.OldQuery d) ∧
          (eqMatch exManyMoved.Query d = true →
            (arrayAt d1 exManyMoved.ThroughProp).filter (hasId (mget exSnap "_id")) =
              [Value.doc (buildData exManyMoved exSnap)]) ∧
          (exManyMoved.OldQuery ≠ [] → eqMatch exManyMoved.OldQuery d = true →
            eqMatch exManyMoved.Query d = false →
            (arrayAt d1 exManyMoved.ThroughProp).filter (hasId (mget exSnap "_id")) = []))
        (exDB exManyMoved.Collection)
        ((cascadeSaveWithConfig (docStore eqMatch) exManyMoved exSnap exDB).2
          exManyMoved.Collection) ∧
      (cascadeSaveWithConfig (docStore eqMatch) exManyMoved exSnap
          (cascadeSaveWithConfig (docStore eqMatch) exManyMoved exSnap exDB).2).2 =
        (cascadeSaveWithConfig (docStore eqMatch) exManyMoved exSnap exDB).2) :=
  ⟨rfl, relMany_save_one_copy_idempotent eqMatch exDB exManyMoved exSnap rfl
    (eqMatch_mset exManyMoved.Query exManyMoved.ThroughProp (by decide))
    (eqMatch_mset exManyMoved.OldQuery exManyMoved.ThroughProp (by decide))⟩

/-- C1, counterexample: with an empty OldQuery, which every document matches, the save sends
no pull against OldQuery, so p0, which matches OldQuery and not Query, keeps its element
with the id c1. -/
theorem relMany_save_empty_oldQuery_keeps_copy :
    exManyNoOld.RelType = REL_MANY ∧
    (∀ d v, eqMatch exManyNoOld.Query (mset d exManyNoOld.ThroughProp v) =
      eqMatch exManyNoOld.Query d) ∧
    (∀ d v, eqMatch exManyNoOld.OldQuery (mset d exManyNoOld.ThroughProp v) =
      eqMatch exManyNoOld.OldQuery d) ∧
    (cascadeSaveWithConfig (docStore eqMatch) exManyNoOld exSnap exDB).2 "parents" =
      [exParent0,
       [("_id", Value.str "p1"),
        ("child", Value.doc [("_id", Value.str "c2"), ("name", Value.str "Y")]),
        ("children", Value.arr [Value.doc [("_id", Value.str "c2"), ("name", Value.str "Y")],
          Value.doc [("_id", Value.str "c1"), ("name", Value.str "X")]])]] ∧
    ¬ List.Forall₂
        (fun d d1 =>
          eqMatch exManyNoOld.OldQuery d = true → eqMatch exManyNoOld.Query d = false →
            (arrayAt d1 exManyNoOld.ThroughProp).filter (hasId (mget exSnap "_id")) = [])
        (exDB exManyNoOld.Collection)
        ((cascadeSaveWithConfig (docStore eqMatch) exManyNoOld exSnap exDB).2
          exManyNoOld.Collection) := by
  have hstore : (cascadeSaveWithConfig (docStore eqMatch) exManyNoOld exSnap exDB).2 "parents" =
      [exParent0,
       [("_id", Value.str "p1"),
        ("child", Value.doc [("_id", Value.str "c2"), ("name", Value.str "Y")]),
        ("children", Value.arr [Value.doc [("_id", Value.str "c2"), ("name", Value.str "Y")],
          Value.doc [("_id", Value.str "c1"), ("name", Value.str "X")]])]] := by decide
  refine ⟨rfl, eqMatch_mset _ _ (by decide), eqMatch_mset _ _ (by decide), hstore, ?_⟩
  intro h
  have hc : exManyNoOld.Collection = "parents" := rfl
  rw [hc, hstore] at h
  have hx : exDB "parents" = [exParent0, exParent1] := by decide
  rw [hx] at h
  cases h with
  | cons h0 _ =>
    have := h0 (by decide) (by decide)
    revert this
    decide

/-! ## REL_ONE save on the document store -/

/-- The store after a REL_ONE save: every document of the collection goes through the
unset against OldQuery, when there is one, and the set against Query. -/
theorem save_one_store (matchesQ : M → M → Bool) (db : DB) (conf : CascadeConfig) (snap : M)
    (hrel : conf.RelType = REL_ONE) :
    (cascadeSaveWithConfig (docStore matchesQ) conf snap db).2 =
      Function.update db conf.Collection ((db conf.Collection).map (fun d =>
        updateDoc matchesQ conf.Query
          [("$set", mset [] conf.ThroughProp (Value.doc (buildData conf snap)))]
          (if conf.OldQuery.length > 0 then
            updateDoc matchesQ conf.OldQuery
              [("$set", mset [] conf.ThroughProp Value.null)] d
          else d))) := by
  simp only [cascadeSaveWithConfig, hrel, if_true, docStore_snd]
  by_cases hO : conf.OldQuery.length > 0
  · simp only [hO, if_true, update_update_map]
  · simp only [hO, if_false]

/-- The updates of a REL_ONE save on one document, when Query does not read the
through-property. -/
theorem one_doc_eq (matchesQ : M → M → Bool) (conf : CascadeConfig) (snap : M)
    (hQ : ∀ d v, matchesQ conf.Query (mset d conf.ThroughProp v) = matchesQ conf.Query d)
    (d : M) :
    updateDoc matchesQ conf.Query
        [("$set", mset [] conf.ThroughProp (Value.doc (buildData conf snap)))]
        (if conf.OldQuery.length > 0 then
          updateDoc matchesQ conf.OldQuery
            [("$set", mset [] conf.ThroughProp Value.null)] d
        else d) =
      if matchesQ conf.Query d = true then
        mset d conf.ThroughProp (Value.doc (buildData conf snap))
      else if conf.OldQuery.length > 0 ∧ matchesQ conf.OldQuery d = true then
        mset d conf.ThroughProp Value.null
      else d := by
  simp only [updateDoc, applyUpdate_single, applyOp_set]
  by_cases hO : conf.OldQuery.length > 0 <;> by_cases hm : matchesQ conf.OldQuery d = true <;>
    by_cases hq : matchesQ conf.Query d = true <;>
    simp [hO, hm, hq, hQ, mset_mset_same]

/-- C2: a REL_ONE save moves the relation. Over the document store, for a config with
RelType = REL_ONE whose Query and OldQuery do not read the through-property, after
cascadeSaveWithConfig every document matches the same queries as before; every document
matching Query holds the replication payload at the through-property; every document
matching a non-empty OldQuery but not Query holds null there; and every document that
matches neither Query nor a non-empty OldQuery is unchanged. -/
theorem relOne_save_moves_relation (matchesQ : M → M → Bool) (db : DB)
    (conf : CascadeConfig) (snap : M)
    (hrel : conf.RelType = REL_ONE)
    (hQ : ∀ d v, matchesQ conf.Query (mset d conf.ThroughProp v) = matchesQ conf.Query d)
    (hOQ : ∀ d v,
      matchesQ conf.OldQuery (mset d conf.ThroughProp v) = matchesQ conf.OldQuery d) :
    List.Forall₂
      (fun d d1 =>
        (matchesQ conf.Query d1 = matchesQ conf.Query d ∧
          matchesQ conf.OldQuery d1 = matchesQ conf.OldQuery d) ∧
        (matchesQ conf.Query d = true →
          mget d1 conf.ThroughProp = Value.doc (buildData conf snap)) ∧
        (conf.OldQuery ≠ [] → matchesQ conf.OldQuery d = true →
          matchesQ conf.Query d = false → mget d1 conf.ThroughProp = Value.null) ∧
        (matchesQ conf.Query d = false →
          (conf.OldQuery = [] ∨ matchesQ conf.OldQuery d = false) → d1 = d))
      (db conf.Collection)
      ((cascadeSaveWithConfig (docStore matchesQ) conf snap db).2 conf.Collection) := by
  rw [save_one_store matchesQ db conf snap hrel, Function.update_same,
    List.forall₂_map_right_iff, List.forall₂_same]
  intro d _
  rw [one_doc_eq matchesQ conf snap hQ d]
  refine ⟨?_, ?_, ?_, ?_⟩
  · by_cases hq : matchesQ conf.Query d = true
    · rw [if_pos hq, hQ, hOQ]
      exact ⟨rfl, rfl⟩
    · by_cases hm : conf.OldQuery.length > 0 ∧ matchesQ conf.OldQuery d = true
      · rw [if_neg hq, if_pos hm, hQ, hOQ]
        exact ⟨rfl, rfl⟩
      · rw [if_neg hq, if_neg hm]
        exact ⟨rfl, rfl⟩
  · intro hq
    rw [if_pos hq, mget_mset_same]
  · intro hne hm hq
    have hq1 : ¬ (matchesQ conf.Query d = true) := by simp [hq]
    rw [if_neg hq1, if_pos ⟨List.length_pos.2 hne, hm⟩, mget_mset_same]
  · intro hq hno
    have hq1 : ¬ (matchesQ conf.Query d = true) := by simp [hq]
    have hm1 : ¬ (conf.OldQuery.length > 0 ∧ matchesQ conf.OldQuery d = true) := by
      rintro ⟨hl, hm⟩
      rcases hno with h | h
      · exact (List.length_pos.1 hl) h
      · rw [hm] at h
        exact Bool.noConfusion h
    rw [if_neg hq1, if_neg hm1]

/-- C2, witness: Scenario B on the worked store. -/
theorem relOne_save_moves_relation_witness :
    exOneMoved.RelType = REL_ONE ∧
    List.Forall₂
      (fun d d1 =>
        (eqMatch exOneMoved.Query d1 = eqMatch exOneMoved.Query d ∧
          eqMatch exOneMoved.OldQuery d1 = eqMatch exOneMoved.OldQuery d) ∧
        (eqMatch exOneMoved.Query d = true →
          mget d1 exOneMoved.ThroughProp = Value.doc (buildData exOneMoved exSnap)) ∧
        (exOneMoved.OldQuery ≠ [] → eqMatch exOneMoved.OldQuery d = true →
          eqMatch exOneMoved.Query d = false → mget d1 exOneMoved.ThroughProp = Value.null) ∧
        (eqMatch exOneMoved.Query d = false →
          (exOneMoved.OldQuery = [] ∨ eqMatch exOneMoved.OldQuery d = false) → d1 = d))
      (exDB exOneMoved.Collection)
      ((cascadeSaveWithConfig (docStore eqMatch) exOneMoved exSnap exDB).2
        exOneMoved.Collection) :=
  ⟨rfl, relOne_save_moves_relation eqMatch exDB exOneMoved exSnap rfl
    (eqMatch_mset exOneMoved.Query exOneMoved.ThroughProp (by decide))
    (eqMatch_mset exOneMoved.OldQuery exOneMoved.ThroughProp (by decide))⟩

/-! ## REL_MANY delete on the document store -/

/-- The store after a REL_MANY delete: one pull on every document of the collection that
Query matches. -/
theorem delete_many_store (matchesQ : M → M → Bool) (db : DB) (conf : CascadeConfig)
    (id : String) (hrel : conf.RelType = REL_MANY) :
    (cascadeDeleteWithConfig (docStore matchesQ) conf id db).2 =
      Function.update db conf.Collection ((db conf.Collection).map (fun d =>
        if matchesQ conf.Query d = true then
          applyOp "$pull" conf.ThroughProp (Value.doc [("_id", Value.oid id)]) d
        else d)) := by
  have h1 : (REL_MANY = REL_ONE) = False := by decide
  simp only [cascadeDeleteWithConfig, hrel, h1, if_false, if_true, docStore_snd]
  apply congrArg (Function.update db conf.Collection)
  apply List.map_congr_left
  intro d _
  simp only [updateDoc, applyUpdate_single]

/-- C3: a REL_MANY delete removes only the deleted id. Over the document store, for a config
with RelType = REL_MANY and every id, after cascadeDeleteWithConfig the through-property
array of every document that matched Query is the array before without the elements whose
_id is the id, the other elements in their order, so it has no element with that _id; every
document that did not match Query is unchanged; and a document that matches Query afterwards
has no element with that _id. -/
theorem relMany_delete_removes_only_id (matchesQ : M → M → Bool) (db : DB)
    (conf : CascadeConfig) (id : String) (hrel : conf.RelType = REL_MANY) :
    List.Forall₂
      (fun d d1 =>
        (matchesQ conf.Query d = true →
          arrayAt d1 conf.ThroughProp =
              (arrayAt d conf.ThroughProp).filter (fun e => !hasId (Value.oid id) e) ∧
            (arrayAt d1 conf.ThroughProp).filter (hasId (Value.oid id)) = []) ∧
        (matchesQ conf.Query d = false → d1 = d) ∧
        (matchesQ conf.Query d1 = true →
          (arrayAt d1 conf.ThroughProp).filter (hasId (Value.oid id)) = []))
      (db conf.Collection)
      ((cascadeDeleteWithConfig (docStore matchesQ) conf id db).2 conf.Collection) := by
  rw [delete_many_store matchesQ db conf id hrel, Function.update_same,
    List.forall₂_map_right_iff, List.forall₂_same]
  intro d _
  by_cases hq : matchesQ conf.Query d = true
  · rw [if_pos hq, arrayAt_pull, filter_has_after_pull]
    exact ⟨fun _ => ⟨rfl, rfl⟩, fun h => by rw [hq] at h; exact Bool.noConfusion h,
      fun _ => rfl⟩
  · rw [if_neg hq]
    exact ⟨fun h => absurd h hq, fun _ => rfl, fun h => absurd h hq⟩

/-- C3, witness: deleting the child aa from the parents that match Query. -/
theorem relMany_delete_removes_only_id_witness :
    exManyNoOld.RelType = REL_MANY ∧
    List.Forall₂
      (fun d d1 =>
        (eqMatch exManyNoOld.Query d = true →
          arrayAt d1 exManyNoOld.ThroughProp =
              (arrayAt d exManyNoOld.ThroughProp).filter (fun e => !hasId (Value.oid "aa") e) ∧
            (arrayAt d1 exManyNoOld.ThroughProp).filter (hasId (Value.oid "aa")) = []) ∧
        (eqMatch exManyNoOld.Query d = false → d1 = d) ∧
        (eqMatch exManyNoOld.Query d1 = true →
          (arrayAt d1 exManyNoOld.ThroughProp).filter (hasId (Value.oid "aa")) = []))
      (exOidDB exManyNoOld.Collection)
      ((cascadeDeleteWithConfig (docStore eqMatch) exManyNoOld "aa" exOidDB).2
        exManyNoOld.Collection) :=
  ⟨rfl, relMany_delete_removes_only_id eqMatch exOidDB exManyNoOld "aa" rfl⟩

/-! ## The updates issued, on the recording client -/

/-- The updates a REL_ONE save issues, after the calls already recorded. -/
theorem save_one_calls (oracle : List UpdateCall → UpdateCall → Result) (conf : CascadeConfig)
    (snap : M) (log : List UpdateCall) (hrel : conf.RelType = REL_ONE) :
    (cascadeSaveWithConfig (recorder oracle) conf snap log).2 =
      log ++
        ((if conf.OldQuery.length > 0 then
            [(⟨conf.Collection, conf.OldQuery,
              [("$set", [(conf.ThroughProp, Value.null)])]⟩ : UpdateCall)]
          else []) ++
          [⟨conf.Collection, conf.Query,
            [("$set", [(conf.ThroughProp, Value.doc (buildData conf snap))])]⟩]) := by
  simp only [cascadeSaveWithConfig, hrel, if_true, recorder, mset]
  by_cases hO : conf.OldQuery.length > 0
  · simp only [hO, if_true, List.append_assoc]
  · simp only [hO, if_false, List.nil_append]

/-- The updates a REL_MANY save issues, after the calls already recorded. -/
theorem save_many_calls (oracle : List UpdateCall → UpdateCall → Result) (conf : CascadeConfig)
    (snap : M) (log : List UpdateCall) (hrel : conf.RelType = REL_MANY) :
    (cascadeSaveWithConfig (recorder oracle) conf snap log).2 =
      log ++
        ((if conf.OldQuery.length > 0 then
            [(⟨conf.Collection, conf.OldQuery,
              [("$pull", [(conf.ThroughProp, Value.doc [("_id", mget snap "_id")])])]⟩ :
                UpdateCall)]
          else []) ++
          [⟨conf.Collection, conf.Query,
            [("$pull", [(conf.ThroughProp, Value.doc [("_id", mget snap "_id")])])]⟩,
           ⟨conf.Collection, conf.Query,
            [("$push", [(conf.ThroughProp, Value.doc (buildData conf snap))])]⟩]) := by
  have h1 : (REL_MANY = REL_ONE) = False := by decide
  simp only [cascadeSaveWithConfig, hrel, h1, if_false, if_true, recorder, mset]
  by_cases hO : conf.OldQuery.length > 0
  · simp only [hO, if_true, List.append_assoc, List.singleton_append, List.cons_append,
      List.nil_append]
  · simp only [hO, if_false, List.nil_append, List.append_assoc, List.singleton_append]

/-- A save with an unknown relation type issues nothing. -/
theorem save_invalid (oracle : List UpdateCall → UpdateCall → Result) (conf : CascadeConfig)
    (snap : M) (log : List UpdateCall) (h1 : conf.RelType ≠ REL_ONE)
    (h2 : conf.RelType ≠ REL_MANY) :
    cascadeSaveWithConfig (recorder oracle) conf snap log =
      ((⟨0, 0⟩, some "Invalid relation type"), log) := by
  simp only [cascadeSaveWithConfig, h1, h2, if_false]

/-- The updates a delete issues, after the calls already recorded. -/
theorem delete_calls (oracle : List UpdateCall → UpdateCall → Result) (conf : CascadeConfig)
    (id : String) (log : List UpdateCall) :
    (cascadeDeleteWithConfig (recorder oracle) conf id log).2 =
      log ++
        (if conf.RelType = REL_ONE then
          [(⟨conf.Collection, conf.Query,
            [("$set", [(conf.ThroughProp, Value.null)])]⟩ : UpdateCall)]
        else if conf.RelType = REL_MANY then
          [⟨conf.Collection, conf.Query,
            [("$pull", [(conf.ThroughProp, Value.doc [("_id", Value.oid id)])])]⟩]
        else []) := by
  simp only [cascadeDeleteWithConfig, recorder, mset]
  by_cases h1 : conf.RelType = REL_ONE
  · simp only [h1, if_true]
  · by_cases h2 : conf.RelType = REL_MANY
    · have h3 : (REL_MANY = REL_ONE) = False := by decide
      simp only [h2, h3, if_false, if_true]
    · simp only [h1, h2, if_false, List.append_nil]

/-- The updates of one save do not depend on what was recorded before or on the answers of
the store. -/
theorem save_calls_append (oracle oracle0 : List UpdateCall → UpdateCall → Result)
    (conf : CascadeConfig) (snap : M) (log : List UpdateCall) :
    (cascadeSaveWithConfig (recorder oracle) conf snap log).2 =
      log ++ (cascadeSaveWithConfig (recorder oracle0) conf snap []).2 := by
  by_cases h1 : conf.RelType = REL_ONE
  · rw [save_one_calls oracle conf snap log h1, save_one_calls oracle0 conf snap [] h1,
      List.nil_append]
  · by_cases h2 : conf.RelType = REL_MANY
    · rw [save_many_calls oracle conf snap log h2, save_many_calls oracle0 conf snap [] h2,
        List.nil_append]
    · rw [save_invalid oracle conf snap log h1 h2, save_invalid oracle0 conf snap [] h1 h2,
        List.append_nil]

/-- The updates of one delete do not depend on what was recorded before or on the answers of
the store. -/
theorem delete_calls_append (oracle oracle0 : List UpdateCall → UpdateCall → Result)
    (conf : CascadeConfig) (id : String) (log : List UpdateCall) :
    (cascadeDeleteWithConfig (recorder oracle) conf id log).2 =
      log ++ (cascadeDeleteWithConfig (recorder oracle0) conf id []).2 := by
  rw [delete_calls oracle conf id log, delete_calls oracle0 conf id [], List.nil_append]

/-! ## The payload and the update sequences -/

/-- C4: the replication payload. The map that cascadeSaveWithConfig builds has exactly the keys
_id and the names in Properties, each bound once; _id is bound to the snapshot value of _id
and every name in Properties to the snapshot value of that name, which is null when the
snapshot has no such key; and this map is the value written by the last update of the save,
a set for REL_ONE and a push for REL_MANY, against Query. -/
theorem replication_payload_exact (conf : CascadeConfig) (snap : M) :
    (∀ k, k ∈ mkeys (buildData conf snap) ↔ k = "_id" ∨ k ∈ conf.Properties) ∧
    (mkeys (buildData conf snap)).Nodup ∧
    mget (buildData conf snap) "_id" = mget snap "_id" ∧
    (∀ p, p ∈ conf.Properties → mget (buildData conf snap) p = mget snap p) ∧
    (∀ p, p ∈ conf.Properties → p ∉ mkeys snap → mget (buildData conf snap) p = Value.null) ∧
    (∀ (oracle : List UpdateCall → UpdateCall → Result) (log : List UpdateCall),
      conf.RelType = REL_ONE →
      ∃ before, (cascadeSaveWithConfig (recorder oracle) conf snap log).2 =
        log ++ before ++ [⟨conf.Collection, conf.Query,
          [("$set", [(conf.ThroughProp, Value.doc (buildData conf snap))])]⟩]) ∧
    (∀ (oracle : List UpdateCall → UpdateCall → Result) (log : List UpdateCall),
      conf.RelType = REL_MANY →
      ∃ before, (cascadeSaveWithConfig (recorder oracle) conf snap log).2 =
        log ++ before ++ [⟨conf.Collection, conf.Query,
          [("$push", [(conf.ThroughProp, Value.doc (buildData conf snap))])]⟩]) := by
  have hget : ∀ p, p ∈ conf.Properties → mget (buildData conf snap) p = mget snap p :=
    fun p hp => buildData_get conf snap p ((buildData_keys conf snap p).2 (Or.inr hp))
  refine ⟨buildData_keys conf snap, ?_, buildData_id conf snap, hget, ?_, ?_, ?_⟩
  · unfold buildData
    apply foldl_props_nodup
    simp [mset, mkeys]
  · intro p hp habs
    rw [hget p hp, mget_of_not_mem snap p habs]
  · intro oracle log hrel
    refine ⟨(if conf.OldQuery.length > 0 then
            [(⟨conf.Collection, conf.OldQuery,
              [("$set", [(conf.ThroughProp, Value.null)])]⟩ : UpdateCall)]
          else []), ?_⟩
    rw [save_one_calls oracle conf snap log hrel, List.append_assoc]
  · intro oracle log hrel
    refine ⟨(if conf.OldQuery.length > 0 then
            [(⟨conf.Collection, conf.OldQuery,
              [("$pull", [(conf.ThroughProp, Value.doc [("_id", mget snap "_id")])])]⟩ :
                UpdateCall)]
          else []) ++ [⟨conf.Collection, conf.Query,
            [("$pull", [(conf.ThroughProp, Value.doc [("_id", mget snap "_id")])])]⟩], ?_⟩
    rw [save_many_calls oracle conf snap log hrel]
    simp only [List.append_assoc, List.singleton_append]

/-- C4, witness: the payload of the worked snapshot, whose field secret is not replicated. -/
theorem replication_payload_exact_witness :
    buildData exManyMoved exSnap = [("_id", Value.str "c1"), ("name", Value.str "X")] ∧
    "name" ∈ exManyMoved.Properties ∧
    mget (buildData exManyMoved exSnap) "name" = mget exSnap "name" :=
  ⟨by decide, by decide,
    (replication_payload_exact exManyMoved exSnap).2.2.2.1 "name" (by decide)⟩

/-- C5: the update sequence of a REL_ONE save. Whatever the store answers, the save issues,
when OldQuery is non-empty, the set of the through-property to null against OldQuery and
then the set of the through-property to the payload against Query, two updates in this
order; and when OldQuery is empty, the one set against Query alone. -/
theorem relOne_save_update_sequence (oracle : List UpdateCall → UpdateCall → Result)
    (conf : CascadeConfig) (snap : M) (log : List UpdateCall)
    (hrel : conf.RelType = REL_ONE) :
    (conf.OldQuery.length > 0 →
      (cascadeSaveWithConfig (recorder oracle) conf snap log).2 =
        log ++
          [⟨conf.Collection, conf.OldQuery, [("$set", [(conf.ThroughProp, Value.null)])]⟩,
           ⟨conf.Collection, conf.Query,
            [("$set", [(conf.ThroughProp, Value.doc (buildData conf snap))])]⟩]) ∧
    (conf.OldQuery.length = 0 →
      (cascadeSaveWithConfig (recorder oracle) conf snap log).2 =
        log ++
          [⟨conf.Collection, conf.Query,
            [("$set", [(conf.ThroughProp, Value.doc (buildData conf snap))])]⟩]) := by
  rw [save_one_calls oracle conf snap log hrel]
  constructor
  · intro h
    rw [if_pos h]
    rfl
  · intro h
    have h0 : ¬ (conf.OldQuery.length > 0) := by omega
    rw [if_neg h0]
    rfl

/-- C5, witness: Scenario B issues the unset against p0 and then the set against p1. -/
theorem relOne_save_update_sequence_witness :
    exOneMoved.RelType = REL_ONE ∧ exOneMoved.OldQuery.length > 0 ∧
    (cascadeSaveWithConfig (recorder (fun _ _ => (⟨0, 0⟩, none))) exOneMoved exSnap []).2 =
      [] ++
        [⟨exOneMoved.Collection, exOneMoved.OldQuery,
          [("$set", [(exOneMoved.ThroughProp, Value.null)])]⟩,
         ⟨exOneMoved.Collection, exOneMoved.Query,
          [("$set", [(exOneMoved.ThroughProp, Value.doc (buildData exOneMoved exSnap))])]⟩] :=
  ⟨rfl, by decide,
    (relOne_save_update_sequence (fun _ _ => (⟨0, 0⟩, none)) exOneMoved exSnap [] rfl).1
      (by decide)⟩

/-- C6: the update sequence of a REL_MANY save. Whatever the store answers, the save issues,
only when OldQuery is non-empty, the pull of the elements with the snapshot id against
OldQuery; then, in every case, the same pull against Query; then the push of the payload
against Query; nothing else, and every pull before the push. -/
theorem relMany_save_update_sequence (oracle : List UpdateCall → UpdateCall → Result)
    (conf : CascadeConfig) (snap : M) (log : List UpdateCall)
    (hrel : conf.RelType = REL_MANY) :
    (conf.OldQuery.length > 0 →
      (cascadeSaveWithConfig (recorder oracle) conf snap log).2 =
        log ++
          [⟨conf.Collection, conf.OldQuery,
            [("$pull", [(conf.ThroughProp, Value.doc [("_id", mget snap "_id")])])]⟩,
           ⟨conf.Collection, conf.Query,
            [("$pull", [(conf.ThroughProp, Value.doc [("_id", mget snap "_id")])])]⟩,
           ⟨conf.Collection, conf.Query,
            [("$push", [(conf.ThroughProp, Value.doc (buildData conf snap))])]⟩]) ∧
    (conf.OldQuery.length = 0 →
      (cascadeSaveWithConfig (recorder oracle) conf snap log).2 =
        log ++
          [⟨conf.Collection, conf.Query,
            [("$pull", [(conf.ThroughProp, Value.doc [("_id", mget snap "_id")])])]⟩,
           ⟨conf.Collection, conf.Query,
            [("$push", [(conf.ThroughProp, Value.doc (buildData conf snap))])]⟩]) := by
  rw [save_many_calls oracle conf snap log hrel]
  constructor
  · intro h
    rw [if_pos h]
    rfl
  · intro h
    have h0 : ¬ (conf.OldQuery.length > 0) := by omega
    rw [if_neg h0]
    rfl

/-- C6, witness: Scenario C with a moved relation issues pull, pull, push. -/
theorem relMany_save_update_sequence_witness :
    exManyMoved.RelType = REL_MANY ∧ exManyMoved.OldQuery.length > 0 ∧
    (cascadeSaveWithConfig (recorder (fun _ _ => (⟨0, 0⟩, none))) exManyMoved exSnap []).2 =
      [] ++
        [⟨exManyMoved.Collection, exManyMoved.OldQuery,
          [("$pull", [(exManyMoved.ThroughProp, Value.doc [("_id", mget exSnap "_id")])])]⟩,
         ⟨exManyMoved.Collection, exManyMoved.Query,
          [("$pull", [(exManyMoved.ThroughProp, Value.doc [("_id", mget exSnap "_id")])])]⟩,
         ⟨exManyMoved.Collection, exManyMoved.Query,
          [("$push", [(exManyMoved.ThroughProp, Value.doc (buildData exManyMoved exSnap))])]⟩] :=
  ⟨rfl, by decide,
    (relMany_save_update_sequence (fun _ _ => (⟨0, 0⟩, none)) exManyMoved exSnap [] rfl).1
      (by decide)⟩

/-! ## Invalid relation types and unreadable identifiers -/

/-- C7: an invalid cardinality is rejected without any update. For a config whose RelType is
neither REL_ONE nor REL_MANY, whatever the store would answer, cascadeSaveWithConfig and
cascadeDeleteWithConfig return the zero ChangeInfo with the error Invalid relation type, and
the recorded calls are what they were before: no update is issued. -/
theorem invalid_relType_rejected (oracle : List UpdateCall → UpdateCall → Result)
    (conf : CascadeConfig) (snap : M) (id : String) (log : List UpdateCall)
    (h1 : conf.RelType ≠ REL_ONE) (h2 : conf.RelType ≠ REL_MANY) :
    cascadeSaveWithConfig (recorder oracle) conf snap log =
        ((⟨0, 0⟩, some "Invalid relation type"), log) ∧
      cascadeDeleteWithConfig (recorder oracle) conf id log =
        ((⟨0, 0⟩, some "Invalid relation type"), log) := by
  constructor
  · simp only [cascadeSaveWithConfig, h1, h2, if_false]
  · simp only [cascadeDeleteWithConfig, h1, h2, if_false]

/-- C7, witness: relation type 7, with a non-empty OldQuery, issues nothing. -/
theorem invalid_relType_rejected_witness :
    exInvalid.RelType ≠ REL_ONE ∧ exInvalid.RelType ≠ REL_MANY ∧
    cascadeSaveWithConfig (recorder exFailFirstTwo) exInvalid exSnap [] =
        ((⟨0, 0⟩, some "Invalid relation type"), []) ∧
      cascadeDeleteWithConfig (recorder exFailFirstTwo) exInvalid "aa" [] =
        ((⟨0, 0⟩, some "Invalid relation type"), []) :=
  ⟨by decide, by decide,
    invalid_relType_rejected exFailFirstTwo exInvalid exSnap "aa" [] (by decide) (by decide)⟩

/-- C8 (amended): for a document that exposes GetCascade, CascadeDelete panics and issues no
update when the document has no Id field; when the Id field holds a value that is not an
ObjectId, CascadeDelete returns normally and issues no update. -/
theorem delete_unreadable_id (oracle : List UpdateCall → UpdateCall → Result)
    (doc : Document) (toCascade : List CascadeConfig) (log : List UpdateCall)
    (hc : doc.GetCascade = some toCascade) :
    (doc.Id = none →
      ∃ err, CascadeDelete (recorder oracle) doc log = (Outcome.panicked err, log)) ∧
    (∀ v, doc.Id = some v → (∀ hex, v ≠ Value.oid hex) →
      CascadeDelete (recorder oracle) doc log = (Outcome.returned, log)) := by
  constructor
  · intro hid
    exact ⟨"No such field: Id in obj", by simp only [CascadeDelete, hc, GetField, hid]⟩
  · intro v hid hv
    cases v with
    | oid hex => exact absurd rfl (hv hex)
    | _ => simp only [CascadeDelete, hc, GetField, hid]

/-- C8, witness: a document without Id field panics, one with a string Id returns. -/
theorem delete_unreadable_id_witness :
    (exDocNoId.GetCascade = some [exManyMoved, exOneMoved] ∧ exDocNoId.Id = none ∧
      ∃ err, CascadeDelete (recorder exFailFirstTwo) exDocNoId [] =
        (Outcome.panicked err, [])) ∧
    (exDocStringId.GetCascade = some [exManyMoved, exOneMoved] ∧
      exDocStringId.Id = some (Value.str "c1") ∧
      CascadeDelete (recorder exFailFirstTwo) exDocStringId [] = (Outcome.returned, [])) :=
  ⟨⟨rfl, rfl, (delete_unreadable_id exFailFirstTwo exDocNoId _ [] rfl).1 rfl⟩,
    ⟨rfl, rfl,
      (delete_unreadable_id exFailFirstTwo exDocStringId _ [] rfl).2 (Value.str "c1") rfl
        (fun _ h => Value.noConfusion h)⟩⟩

/-- C8, counterexample: a document whose Id field holds a string exposes GetCascade and has
no identifier readable as ObjectId, and CascadeDelete returns normally instead of
panicking. -/
theorem delete_string_id_returns :
    exDocStringId.GetCascade = some [exManyMoved, exOneMoved] ∧
    exDocStringId.Id = some (Value.str "c1") ∧
    CascadeDelete (recorder exFailFirstTwo) exDocStringId [] = (Outcome.returned, []) ∧
    ¬ ∃ err, (CascadeDelete (recorder exFailFirstTwo) exDocStringId []).1 =
      Outcome.panicked err := by
  refine ⟨rfl, rfl, rfl, ?_⟩
  rintro ⟨err, h⟩
  exact Outcome.noConfusion h

/-! ## Store errors -/

/-- C9 (amended): for a config with a valid RelType and every pattern of answers of the
store, cascadeSaveWithConfig issues each of its updates once, in the fixed order, whatever
the answers are, and its result is the answer of the store to the last update, the set or
the push against Query: it carries an error exactly when that update does. -/
theorem save_result_is_last_update (oracle : List UpdateCall → UpdateCall → Result)
    (conf : CascadeConfig) (snap : M) (log : List UpdateCall) :
    (conf.RelType = REL_ONE →
      (cascadeSaveWithConfig (recorder oracle) conf snap log).2 =
        (log ++
          (if conf.OldQuery.length > 0 then
            [(⟨conf.Collection, conf.OldQuery,
              [("$set", [(conf.ThroughProp, Value.null)])]⟩ : UpdateCall)]
          else [])) ++
          [⟨conf.Collection, conf.Query,
            [("$set", [(conf.ThroughProp, Value.doc (buildData conf snap))])]⟩] ∧
      (cascadeSaveWithConfig (recorder oracle) conf snap log).1 =
        oracle
          (log ++
            (if conf.OldQuery.length > 0 then
              [(⟨conf.Collection, conf.OldQuery,
                [("$set", [(conf.ThroughProp, Value.null)])]⟩ : UpdateCall)]
            else []))
          ⟨conf.Collection, conf.Query,
            [("$set", [(conf.ThroughProp, Value.doc (buildData conf snap))])]⟩) ∧
    (conf.RelType = REL_MANY →
      (cascadeSaveWithConfig (recorder oracle) conf snap log).2 =
        (log ++
          (if conf.OldQuery.length > 0 then
            [(⟨conf.Collection, conf.OldQuery,
              [("$pull", [(conf.ThroughProp, Value.doc [("_id", mget snap "_id")])])]⟩ :
                UpdateCall)]
          else []) ++
          [⟨conf.Collection, conf.Query,
            [("$pull", [(conf.ThroughProp, Value.doc [("_id", mget snap "_id")])])]⟩]) ++
          [⟨conf.Collection, conf.Query,
            [("$push", [(conf.ThroughProp, Value.doc (buildData conf snap))])]⟩] ∧
      (cascadeSaveWithConfig (recorder oracle) conf snap log).1 =
        oracle
          (log ++
            (if conf.OldQuery.length > 0 then
              [(⟨conf.Collection, conf.OldQuery,
                [("$pull", [(conf.ThroughProp, Value.doc [("_id", mget snap "_id")])])]⟩ :
                  UpdateCall)]
            else []) ++
            [⟨conf.Collection, conf.Query,
              [("$pull", [(conf.ThroughProp, Value.doc [("_id", mget snap "_id")])])]⟩])
          ⟨conf.Collection, conf.Query,
            [("$push", [(conf.ThroughProp, Value.doc (buildData conf snap))])]⟩) := by
  have h0 : (REL_MANY = REL_ONE) = False := by decide
  constructor
  · intro hrel
    simp only [cascadeSaveWithConfig, hrel, if_true, recorder, mset]
    by_cases hO : conf.OldQuery.length > 0
    · simp only [hO, if_true, and_self]
    · simp only [hO, if_false, List.append_nil, and_self]
  · intro hrel
    simp only [cascadeSaveWithConfig, hrel, h0, if_false, if_true, recorder, mset]
    by_cases hO : conf.OldQuery.length > 0
    · simp only [hO, if_true, and_self]
    · simp only [hO, if_false, List.append_nil, and_self]

/-- C9, witness: on a store that fails the first two calls, the REL_MANY save of Scenario C
issues its three updates once each and returns the answer to the push. -/
theorem save_result_is_last_update_witness :
    exManyMoved.RelType = REL_MANY ∧
    (cascadeSaveWithConfig (recorder exFailFirstTwo) exManyMoved exSnap []).2 =
      [⟨"parents", [("_id", Value.str "p0")],
          [("$pull", [("children", Value.doc [("_id", Value.str "c1")])])]⟩,
        ⟨"parents", [("_id", Value.str "p1")],
          [("$pull", [("children", Value.doc [("_id", Value.str "c1")])])]⟩,
        ⟨"parents", [("_id", Value.str "p1")],
          [("$push", [("children",
            Value.doc [("_id", Value.str "c1"), ("name", Value.str "X")])])]⟩] ∧
    (cascadeSaveWithConfig (recorder exFailFirstTwo) exManyMoved exSnap []).1 =
      (⟨1, 0⟩, none) := by
  have h := (save_result_is_last_update exFailFirstTwo exManyMoved exSnap []).2 rfl
  refine ⟨rfl, ?_, ?_⟩
  · rw [h.1]
    decide
  · rw [h.2]
    decide

/-- C9, counterexample: the store answers the pull against OldQuery and the pull against
Query with an error, and the result of cascadeSaveWithConfig carries no error. -/
theorem save_drops_earlier_errors :
    exManyMoved.RelType = REL_MANY ∧
    (exFailFirstTwo []
      ⟨"parents", [("_id", Value.str "p0")],
        [("$pull", [("children", Value.doc [("_id", Value.str "c1")])])]⟩).2 =
      some "connection lost" ∧
    (exFailFirstTwo
      [⟨"parents", [("_id", Value.str "p0")],
        [("$pull", [("children", Value.doc [("_id", Value.str "c1")])])]⟩]
      ⟨"parents", [("_id", Value.str "p1")],
        [("$pull", [("children", Value.doc [("_id", Value.str "c1")])])]⟩).2 =
      some "connection lost" ∧
    (cascadeSaveWithConfig (recorder exFailFirstTwo) exManyMoved exSnap []).2 =
      [⟨"parents", [("_id", Value.str "p0")],
          [("$pull", [("children", Value.doc [("_id", Value.str "c1")])])]⟩,
        ⟨"parents", [("_id", Value.str "p1")],
          [("$pull", [("children", Value.doc [("_id", Value.str "c1")])])]⟩,
        ⟨"parents", [("_id", Value.str "p1")],
          [("$push", [("children",
            Value.doc [("_id", Value.str "c1"), ("name", Value.str "X")])])]⟩] ∧
    (cascadeSaveWithConfig (recorder exFailFirstTwo) exManyMoved exSnap []).1.2 = none := by
  refine ⟨rfl, rfl, rfl, ?_, ?_⟩ <;> decide

/-! ## Configs are processed independently -/

/-- The loop of CascadeSave on the recording client: the recorded calls grow by the calls of
each config in turn. -/
theorem save_loop_calls (oracle : List UpdateCall → UpdateCall → Result)
    (oracles : CascadeConfig → List UpdateCall → UpdateCall → Result)
    (snap : M) (toCascade : List CascadeConfig) (log : List UpdateCall) :
    toCascade.foldl (fun s conf => (cascadeSaveWithConfig (recorder oracle) conf snap s).2) log =
      log ++ (toCascade.map (fun conf =>
        (cascadeSaveWithConfig (recorder (oracles conf)) conf snap []).2)).flatten := by
  induction toCascade generalizing log with
  | nil => simp
  | cons c cs ih =>
    simp only [List.foldl_cons, List.map_cons, List.flatten_cons]
    rw [ih, save_calls_append oracle (oracles c) c snap log, List.append_assoc]

/-- The loop of CascadeDelete on the recording client. -/
theorem delete_loop_calls (oracle : List UpdateCall → UpdateCall → Result)
    (oracles : CascadeConfig → List UpdateCall → UpdateCall → Result)
    (id : String) (toCascade : List CascadeConfig) (log : List UpdateCall) :
    toCascade.foldl (fun s conf => (cascadeDeleteWithConfig (recorder oracle) conf id s).2) log =
      log ++ (toCascade.map (fun conf =>
        (cascadeDeleteWithConfig (recorder (oracles conf)) conf id []).2)).flatten := by
  induction toCascade generalizing log with
  | nil => simp
  | cons c cs ih =>
    simp only [List.foldl_cons, List.map_cons, List.flatten_cons]
    rw [ih, delete_calls_append oracle (oracles c) c id log, List.append_assoc]

/-- C10: a failing config does not halt the rest. For a document exposing GetCascade with
the config list toCascade, every snapshot, every behaviour of the store during the call and
any mix of valid and invalid RelType values, the updates issued by CascadeSave are the
concatenation, in list order, of the updates that cascadeSaveWithConfig issues for each
config on its own, against any store behaviour whatever; and when the Id of the document is
an ObjectId, CascadeDelete returns and its updates are the concatenation of those of
cascadeDeleteWithConfig for each config with that id. -/
theorem cascade_configs_independent (oracle : List UpdateCall → UpdateCall → Result)
    (oracles : CascadeConfig → List UpdateCall → UpdateCall → Result)
    (doc : Document) (toCascade : List CascadeConfig) (snap : M)
    (hc : doc.GetCascade = some toCascade) :
    CascadeSave (recorder oracle) doc snap [] =
        (toCascade.map (fun conf =>
          (cascadeSaveWithConfig (recorder (oracles conf)) conf snap []).2)).flatten ∧
    (∀ id, doc.Id = some (Value.oid id) →
      CascadeDelete (recorder oracle) doc [] =
        (Outcome.returned,
          (toCascade.map (fun conf =>
            (cascadeDeleteWithConfig (recorder (oracles conf)) conf id []).2)).flatten)) := by
  constructor
  · simp only [CascadeSave, hc]
    rw [save_loop_calls oracle oracles snap toCascade [], List.nil_append]
  · intro id hid
    simp only [CascadeDelete, hc, GetField, hid]
    rw [delete_loop_calls oracle oracles id toCascade [], List.nil_append]

/-- C10, witness: three configs, the middle one invalid, on a store that fails its first two
calls; the valid configs around the invalid one issue all their updates. -/
theorem cascade_configs_independent_witness :
    exDocOid.GetCascade = some [exManyMoved, exInvalid, exOneMoved] ∧
    CascadeSave (recorder exFailFirstTwo) exDocOid exSnap [] =
      [⟨"parents", [("_id", Value.str "p0")],
          [("$pull", [("children", Value.doc [("_id", Value.str "c1")])])]⟩,
        ⟨"parents", [("_id", Value.str "p1")],
          [("$pull", [("children", Value.doc [("_id", Value.str "c1")])])]⟩,
        ⟨"parents", [("_id", Value.str "p1")],
          [("$push", [("children",
            Value.doc [("_id", Value.str "c1"), ("name", Value.str "X")])])]⟩,
        ⟨"parents", [("_id", Value.str "p0")], [("$set", [("child", Value.null)])]⟩,
        ⟨"parents", [("_id", Value.str "p1")],
          [("$set", [("child",
            Value.doc [("_id", Value.str "c1"), ("name", Value.str "X")])])]⟩] ∧
    CascadeDelete (recorder exFailFirstTwo) exDocOid [] =
      (Outcome.returned,
        [⟨"parents", [("_id", Value.str "p1")],
          [("$pull", [("children", Value.doc [("_id", Value.oid "aa")])])]⟩,
        ⟨"parents", [("_id", Value.str "p1")], [("$set", [("child", Value.null)])]⟩]) := by
  have h := cascade_configs_independent exFailFirstTwo (fun _ _ _ => (⟨0, 0⟩, none))
    exDocOid [exManyMoved, exInvalid, exOneMoved] exSnap rfl
  refine ⟨rfl, ?_, ?_⟩
  · rw [h.1]
    decide
  · rw [h.2 "aa" rfl]
    decide

/-! ## Missing capability and the delete updates -/

/-- C11: a missing cascade capability is a no-op. For a document whose type does not
implement GetCascade, whatever its Id field is or is not, every snapshot and every behaviour
of the store, CascadeSave issues no update, and CascadeDelete issues no update and returns
normally, without panic. -/
theorem no_cascade_capability_noop (oracle : List UpdateCall → UpdateCall → Result)
    (doc : Document) (snap : M) (log : List UpdateCall) (hc : doc.GetCascade = none) :
    CascadeSave (recorder oracle) doc snap log = log ∧
      CascadeDelete (recorder oracle) doc log = (Outcome.returned, log) := by
  constructor
  · simp only [CascadeSave, hc]
  · simp only [CascadeDelete, hc]

/-- C11, witness: a document with neither GetCascade nor an Id field. -/
theorem no_cascade_capability_noop_witness :
    exDocNoCascade.GetCascade = none ∧ exDocNoCascade.Id = none ∧
    CascadeSave (recorder exFailFirstTwo) exDocNoCascade exSnap [] = [] ∧
      CascadeDelete (recorder exFailFirstTwo) exDocNoCascade [] = (Outcome.returned, []) :=
  ⟨rfl, rfl, no_cascade_capability_noop exFailFirstTwo exDocNoCascade exSnap [] rfl⟩

/-- C12: the delete update per config. For a document whose Id is the ObjectId id and whose
config list is toCascade, whatever the store answers, CascadeDelete returns and its updates
are, config by config in list order, one set of the through-property to null against Query
when RelType = REL_ONE, one pull of the elements with _id = id against Query when
RelType = REL_MANY, and none otherwise; OldQuery is never the target. And
cascadeDeleteWithConfig, for a valid RelType, returns the answer of the store to that one
update. -/
theorem delete_one_update_per_config (oracle : List UpdateCall → UpdateCall → Result)
    (doc : Document) (toCascade : List CascadeConfig) (id : String)
    (hc : doc.GetCascade = some toCascade) (hid : doc.Id = some (Value.oid id)) :
    CascadeDelete (recorder oracle) doc [] =
        (Outcome.returned,
          (toCascade.map (fun conf =>
            if conf.RelType = REL_ONE then
              [(⟨conf.Collection, conf.Query,
                [("$set", [(conf.ThroughProp, Value.null)])]⟩ : UpdateCall)]
            else if conf.RelType = REL_MANY then
              [⟨conf.Collection, conf.Query,
                [("$pull", [(conf.ThroughProp, Value.doc [("_id", Value.oid id)])])]⟩]
            else [])).flatten) ∧
    (∀ (conf : CascadeConfig) (log : List UpdateCall),
      (conf.RelType = REL_ONE →
        cascadeDeleteWithConfig (recorder oracle) conf id log =
          (oracle log ⟨conf.Collection, conf.Query,
              [("$set", [(conf.ThroughProp, Value.null)])]⟩,
            log ++ [⟨conf.Collection, conf.Query,
              [("$set", [(conf.ThroughProp, Value.null)])]⟩])) ∧
      (conf.RelType = REL_MANY →
        cascadeDeleteWithConfig (recorder oracle) conf id log =
          (oracle log ⟨conf.Collection, conf.Query,
              [("$pull", [(conf.ThroughProp, Value.doc [("_id", Value.oid id)])])]⟩,
            log ++ [⟨conf.Collection, conf.Query,
              [("$pull", [(conf.ThroughProp, Value.doc [("_id", Value.oid id)])])]⟩]))) := by
  have h0 : (REL_MANY = REL_ONE) = False := by decide
  constructor
  · simp only [CascadeDelete, hc, GetField, hid]
    rw [delete_loop_calls oracle (fun _ => oracle) id toCascade [], List.nil_append]
    congr 2
    apply List.map_congr_left
    intro conf _
    rw [delete_calls oracle conf id [], List.nil_append]
  · intro conf log
    constructor
    · intro hrel
      simp only [cascadeDeleteWithConfig, hrel, if_true, recorder, mset]
    · intro hrel
      simp only [cascadeDeleteWithConfig, hrel, h0, if_false, if_true, recorder, mset]

/-- C12, witness: a document with ObjectId aa and three configs, the middle one invalid, on a
store that fails its first two calls. -/
theorem delete_one_update_per_config_witness :
    exDocOid.GetCascade = some [exManyMoved, exInvalid, exOneMoved] ∧
    exDocOid.Id = some (Value.oid "aa") ∧
    CascadeDelete (recorder exFailFirstTwo) exDocOid [] =
      (Outcome.returned,
        [⟨"parents", [("_id", Value.str "p1")],
          [("$pull", [("children", Value.doc [("_id", Value.oid "aa")])])]⟩,
        ⟨"parents", [("_id", Value.str "p1")], [("$set", [("child", Value.null)])]⟩]) ∧
    cascadeDeleteWithConfig (recorder exFailFirstTwo) exOneMoved "aa" [] =
      ((⟨0, 0⟩, some "connection lost"),
        [⟨"parents", [("_id", Value.str "p1")], [("$set", [("child", Value.null)])]⟩]) := by
  have h := delete_one_update_per_config exFailFirstTwo exDocOid
    [exManyMoved, exInvalid, exOneMoved] "aa" rfl rfl
  refine ⟨rfl, rfl, ?_, ?_⟩
  · rw [h.1]
    decide
  · rw [(h.2 exOneMoved []).1 rfl]
    decide

/-! ## Dot notation and the REL_ONE delete -/

/-- C13, the code at the failing input: the property a.b is looked up in the snapshot as one
literal key (line 116), so although the nested map under a binds b to the string v, the
payload binds a.b to null, and a save writes that payload. -/
theorem dotted_property_reads_null :
    mget exDottedSnap "a" = Value.doc [("b", Value.str "v")] ∧
    "a.b" ∉ mkeys exDottedSnap ∧
    "a.b" ∈ exDotted.Properties ∧
    buildData exDotted exDottedSnap = [("_id", Value.str "c1"), ("a.b", Value.null)] ∧
    mget (buildData exDotted exDottedSnap) "a.b" ≠ Value.str "v" ∧
    (cascadeSaveWithConfig (recorder (fun _ _ => (⟨0, 0⟩, none))) exDotted exDottedSnap []).2 =
      [⟨"parents", [("_id", Value.str "p1")],
        [("$set", [("child",
          Value.doc [("_id", Value.str "c1"), ("a.b", Value.null)])])]⟩] := by
  refine ⟨?_, ?_, ?_, ?_, ?_, ?_⟩ <;> decide

/-- C14: a REL_ONE delete does not depend on the id of the deleted document. For a config
with RelType = REL_ONE and any two ids, cascadeDeleteWithConfig does the same against every
store client, the one update being the set of the through-property to null against Query;
and over the document store every document matching Query then holds null at the
through-property, whatever it held before, and every other document is unchanged. -/
theorem relOne_delete_ignores_id (conf : CascadeConfig) (id1 id2 : String)
    (hrel : conf.RelType = REL_ONE) :
    (∀ (σ : Type) (cl : Client σ) (s : σ),
      cascadeDeleteWithConfig cl conf id1 s = cascadeDeleteWithConfig cl conf id2 s) ∧
    (∀ (oracle : List UpdateCall → UpdateCall → Result) (log : List UpdateCall),
      (cascadeDeleteWithConfig (recorder oracle) conf id1 log).2 =
        log ++ [⟨conf.Collection, conf.Query, [("$set", [(conf.ThroughProp, Value.null)])]⟩]) ∧
    (∀ (matchesQ : M → M → Bool) (db : DB),
      List.Forall₂
        (fun d d1 =>
          (matchesQ conf.Query d = true → mget d1 conf.ThroughProp = Value.null) ∧
          (matchesQ conf.Query d = false → d1 = d))
        (db conf.Collection)
        ((cascadeDeleteWithConfig (docStore matchesQ) conf id1 db).2 conf.Collection)) := by
  refine ⟨?_, ?_, ?_⟩
  · intro σ cl s
    simp only [cascadeDeleteWithConfig, hrel, if_true]
  · intro oracle log
    simp only [cascadeDeleteWithConfig, hrel, if_true, recorder, mset]
  · intro matchesQ db
    simp only [cascadeDeleteWithConfig, hrel, if_true, docStore_snd, Function.update_same]
    rw [List.forall₂_map_right_iff, List.forall₂_same]
    intro d _
    by_cases hq : matchesQ conf.Query d = true
    · have e : updateDoc matchesQ conf.Query [("$set", mset [] conf.ThroughProp Value.null)] d =
          mset d conf.ThroughProp Value.null := by
        rw [updateDoc, if_pos hq, applyUpdate_single, applyOp_set]
      rw [e]
      exact ⟨fun _ => mget_mset_same d conf.ThroughProp Value.null,
        fun h => by rw [hq] at h; exact Bool.noConfusion h⟩
    · have e : updateDoc matchesQ conf.Query [("$set", mset [] conf.ThroughProp Value.null)] d =
          d := by
        rw [updateDoc, if_neg hq]
      rw [e]
      exact ⟨fun h => absurd h hq, fun _ => rfl⟩

/-- C14, witness: deleting a child with ObjectId zz under the REL_ONE config nulls the child
of p1, which is a copy of c2, and is the same as deleting a child with ObjectId aa. -/
theorem relOne_delete_ignores_id_witness :
    exOneMoved.RelType = REL_ONE ∧
    mget exParent1 "child" = Value.doc [("_id", Value.str "c2"), ("name", Value.str "Y")] ∧
    (cascadeDeleteWithConfig (docStore eqMatch) exOneMoved "zz" exDB).2 "parents" =
      [exParent0,
       [("_id", Value.str "p1"), ("child", Value.null),
        ("children", Value.arr [Value.doc [("_id", Value.str "c2"), ("name", Value.str "Y")]])]] ∧
    cascadeDeleteWithConfig (docStore eqMatch) exOneMoved "zz" exDB =
      cascadeDeleteWithConfig (docStore eqMatch) exOneMoved "aa" exDB :=
  ⟨rfl, by decide, by decide,
    (relOne_delete_ignores_id exOneMoved "zz" "aa" rfl).1 DB (docStore eqMatch) exDB⟩

/-! ## The zero relation type -/

/-- A save with a valid relation type issues at least one update. -/
theorem save_valid_issues (oracle : List UpdateCall → UpdateCall → Result)
    (conf : CascadeConfig) (snap : M) (log : List UpdateCall)
    (h : conf.RelType = REL_ONE ∨ conf.RelType = REL_MANY) :
    (cascadeSaveWithConfig (recorder oracle) conf snap log).2 ≠ log := by
  intro e
  have hlen := congrArg List.length e
  rcases h with h | h
  · rw [save_one_calls oracle conf snap log h] at hlen
    simp at hlen
  · rw [save_many_calls oracle conf snap log h] at hlen
    simp at hlen

/-- A delete with a valid relation type issues at least one update. -/
theorem delete_valid_issues (oracle : List UpdateCall → UpdateCall → Result)
    (conf : CascadeConfig) (id : String) (log : List UpdateCall)
    (h : conf.RelType = REL_ONE ∨ conf.RelType = REL_MANY) :
    (cascadeDeleteWithConfig (recorder oracle) conf id log).2 ≠ log := by
  intro e
  have hlen := congrArg List.length e
  have h0 : (REL_MANY = REL_ONE) = False := by decide
  rw [delete_calls oracle conf id log] at hlen
  rcases h with h | h
  · simp [h] at hlen
  · simp [h, h0] at hlen

/-- C15: the zero value of RelType means REL_MANY. REL_MANY is 0 and REL_ONE is 1. For a
config whose RelType is 0, whatever the store answers, cascadeSaveWithConfig issues the pull
against OldQuery when it is non-empty, the pull against Query and then the push against
Query, and returns the answer of the store to the push; cascadeDeleteWithConfig issues the
one pull against Query and returns the answer of the store to it. And for every config,
each of the two functions takes its final return, the error Invalid relation type with no
update issued, exactly when RelType is neither 0 nor 1. -/
theorem zero_relType_is_relMany (oracle : List UpdateCall → UpdateCall → Result)
    (conf : CascadeConfig) (snap : M) (id : String) (log : List UpdateCall) :
    (REL_MANY = 0 ∧ REL_ONE = 1) ∧
    (conf.RelType = 0 →
      cascadeSaveWithConfig (recorder oracle) conf snap log =
        (oracle
          (log ++
            (if conf.OldQuery.length > 0 then
              [(⟨conf.Collection, conf.OldQuery,
                [("$pull", [(conf.ThroughProp, Value.doc [("_id", mget snap "_id")])])]⟩ :
                  UpdateCall)]
            else []) ++
            [⟨conf.Collection, conf.Query,
              [("$pull", [(conf.ThroughProp, Value.doc [("_id", mget snap "_id")])])]⟩])
          ⟨conf.Collection, conf.Query,
            [("$push", [(conf.ThroughProp, Value.doc (buildData conf snap))])]⟩,
        (log ++
          (if conf.OldQuery.length > 0 then
            [(⟨conf.Collection, conf.OldQuery,
              [("$pull", [(conf.ThroughProp, Value.doc [("_id", mget snap "_id")])])]⟩ :
                UpdateCall)]
          else []) ++
          [⟨conf.Collection, conf.Query,
            [("$pull", [(conf.ThroughProp, Value.doc [("_id", mget snap "_id")])])]⟩]) ++
          [⟨conf.Collection, conf.Query,
            [("$push", [(conf.ThroughProp, Value.doc (buildData conf snap))])]⟩]) ∧
      cascadeDeleteWithConfig (recorder oracle) conf id log =
        (oracle log ⟨conf.Collection, conf.Query,
            [("$pull", [(conf.ThroughProp, Value.doc [("_id", Value.oid id)])])]⟩,
          log ++ [⟨conf.Collection, conf.Query,
            [("$pull", [(conf.ThroughProp, Value.doc [("_id", Value.oid id)])])]⟩])) ∧
    (cascadeSaveWithConfig (recorder oracle) conf snap log =
        ((⟨0, 0⟩, some "Invalid relation type"), log) ↔
      (conf.RelType ≠ 0 ∧ conf.RelType ≠ 1)) ∧
    (cascadeDeleteWithConfig (recorder oracle) conf id log =
        ((⟨0, 0⟩, some "Invalid relation type"), log) ↔
      (conf.RelType ≠ 0 ∧ conf.RelType ≠ 1)) := by
  have h0 : (REL_MANY = REL_ONE) = False := by decide
  refine ⟨⟨rfl, rfl⟩, ?_, ?_, ?_⟩
  · intro hz
    have hrel : conf.RelType = REL_MANY := hz
    constructor
    · simp only [cascadeSaveWithConfig, hrel, h0, if_false, if_true, recorder, mset]
      by_cases hO : conf.OldQuery.length > 0
      · simp only [hO, if_true]
      · simp only [hO, if_false, List.append_nil]
    · simp only [cascadeDeleteWithConfig, hrel, h0, if_false, if_true, recorder, mset]
  · constructor
    · intro e
      have hlog := congrArg Prod.snd e
      constructor
      · intro hz
        exact save_valid_issues oracle conf snap log (Or.inr hz) hlog
      · intro ho
        exact save_valid_issues oracle conf snap log (Or.inl ho) hlog
    · rintro ⟨hz, ho⟩
      exact save_invalid oracle conf snap log ho hz
  · constructor
    · intro e
      have hlog := congrArg Prod.snd e
      constructor
      · intro hz
        exact delete_valid_issues oracle conf id log (Or.inr hz) hlog
      · intro ho
        exact delete_valid_issues oracle conf id log (Or.inl ho) hlog
    · rintro ⟨hz, ho⟩
      have h1 : conf.RelType ≠ REL_ONE := ho
      have h2 : conf.RelType ≠ REL_MANY := hz
      simp only [cascadeDeleteWithConfig, h1, h2, if_false]

/-- C15, witness: a config with RelType 0 saves by pull, pull, push and deletes by pull, on a
store that fails its first two calls. -/
theorem zero_relType_is_relMany_witness :
    exUnset.RelType = 0 ∧
    cascadeSaveWithConfig (recorder exFailFirstTwo) exUnset exSnap [] =
      ((⟨1, 0⟩, none),
        [⟨"parents", [("_id", Value.str "p0")],
          [("$pull", [("children", Value.doc [("_id", Value.str "c1")])])]⟩,
        ⟨"parents", [("_id", Value.str "p1")],
          [("$pull", [("children", Value.doc [("_id", Value.str "c1")])])]⟩,
        ⟨"parents", [("_id", Value.str "p1")],
          [("$push", [("children",
            Value.doc [("_id", Value.str "c1"), ("name", Value.str "X")])])]⟩]) ∧
    cascadeDeleteWithConfig (recorder exFailFirstTwo) exUnset "aa" [] =
      ((⟨0, 0⟩, some "connection lost"),
        [⟨"parents", [("_id", Value.str "p1")],
          [("$pull", [("children", Value.doc [("_id", Value.oid "aa")])])]⟩]) := by
  have h := (zero_relType_is_relMany exFailFirstTwo exUnset exSnap "aa" []).2.1 rfl
  refine ⟨rfl, ?_, ?_⟩
  · rw [h.1]
    decide
  · rw [h.2]
    decide

end Bongo
